import Mathlib

/-!
Verification development for the DealWise price-comparison backend.

The repository contains two near-duplicate FastAPI services:
`src/main.py` (synchronous, referred to below without prefix) and
`src/backend/main.py` (asynchronous, modelled with a `b_` prefix), plus the
async data-access layer `src/backend/database.py`.

Embedding conventions:
- Python dictionaries holding BSON documents become association lists
  `Doc := List (String × Value)` over an inductive `Value` type covering the
  Python values the code manipulates (`None`, booleans, strings, integers,
  decimal numbers, ObjectIds, datetimes).  Python dict keys are unique.
- Python floats are modelled as exact rationals (`ℚ`); the float literals in
  the source (`50.5`, `48.3`, …) denote their decimal values.
- `datetime` values are modelled as an abstract tick count (`Nat`); string
  renderings (`str(dt)`, `dt.isoformat()`) are modelled by abstract injective
  rendering functions, which the claims never inspect beyond their type.
- The process environment becomes a function `Env := String → Option String`;
  Python's `bool(os.getenv(k))` is `truthy (env k)` (absent or empty ⇒ false).
- The Mongo connection used by `src/main.py` lives in a `database` module that
  is not part of the repository snapshot; on the search path the handlers only
  call `create_document`, which may raise.  Persistence on the search path is
  therefore modelled by the list of attempted `create_document` calls together
  with a failure oracle `fails : PersistCall → Bool` saying which calls raise
  (spec §4.1: `create_document` propagates failures; the handler decides).
-/

namespace DealWise

/-- Python runtime values appearing in the documents this backend builds. -/
inductive Value where
  | none
  | bool (b : Bool)
  | str (s : String)
  | int (n : Int)
  | rat (q : ℚ)
  | oid (hex : String)
  | datetime (t : Nat)
deriving DecidableEq

/-- A BSON document: an association list of field names to values (dict keys
are unique in every document the code builds). -/
abbrev Doc : Type := List (String × Value)

/-- Model of Python `str(v)` for the value forms above.  `str` of a string is
the string itself; `str` of an `ObjectId` is its hex form; the `datetime`
rendering is abstract (space-separated, distinct from `isoformat`). -/
def pyStr : Value → String
  | .none => "None"
  | .bool b => if b then "True" else "False"
  | .str s => s
  | .int n => toString n
  | .rat q => toString q
  | .oid hex => hex
  | .datetime t => "1970-01-01 00:00:" ++ toString t

/-- Abstract model of `datetime.isoformat()` (ISO-8601 rendering). -/
def isoformatStr (t : Nat) : String := "1970-01-01T00:00:" ++ toString t

/-- Model of Python `hasattr(v, "isoformat")`: among the value forms the code
stores, only `datetime` values carry an `isoformat` method. -/
def hasIso : Value → Bool
  | .datetime _ => true
  | _ => false

/-- One step of the serializer's second loop: replace a value carrying an
`isoformat` method by its ISO-8601 string, leave the rest alone. -/
def applyIso : Value → Value
  | .datetime t => .str (isoformatStr t)
  | v => v

/-- Overwrite the value stored at key `"_id"` by the string `s`
(models `d["_id"] = str(d["_id"])`). -/
def set_id_str (s : String) (d : Doc) : Doc :=
  d.map fun kv => if kv.1 = "_id" then (kv.1, Value.str s) else kv

/-- First phase of `serialize_mongo` (src/main.py lines 31-32): if `"_id"` is
present and not `None`, coerce it to its string form. -/
def serialize_step1 (d : Doc) : Doc :=
  match List.lookup "_id" d with
  | some v => if v = Value.none then d else set_id_str (pyStr v) d
  | Option.none => d

/-- Second phase of `serialize_mongo` (src/main.py lines 34-39): replace every
value carrying an `isoformat` method by its ISO string. -/
def serialize_step2 (d : Doc) : Doc :=
  d.map fun kv => (kv.1, applyIso kv.2)

/-- Embedding of `serialize_mongo` (src/main.py lines 27-40).  An empty (falsy)
document is returned unchanged; otherwise the `_id` coercion runs first and
the isoformat pass second. -/
def serialize_mongo (d : Doc) : Doc :=
  if d = [] then d else serialize_step2 (serialize_step1 d)

/-- The process environment: maps a variable name to its value when set. -/
def Env : Type := String → Option String

/-- Model of Python truthiness of `os.getenv(k)`: true exactly when the
variable is set to a non-empty string. -/
def truthy : Option String → Bool
  | Option.none => false
  | some s => decide (s ≠ "")

/-- Embedding of `has_amazon_keys` (src/main.py lines 60-61). -/
def has_amazon_keys (env : Env) : Bool :=
  truthy (env "AMAZON_ACCESS_KEY") && truthy (env "AMAZON_SECRET_KEY")
    && truthy (env "AMAZON_PARTNER_TAG")

/-- Embedding of `has_flipkart_keys` (src/main.py lines 64-66). -/
def has_flipkart_keys (env : Env) : Bool :=
  truthy (env "FLIPKART_AFFILIATE_ID") && truthy (env "FLIPKART_AFFILIATE_TOKEN")

/-- Model of Python `round(x, 2)`: round to the nearest multiple of 1/100
(computed as `⌊100q + 1/2⌋ / 100` on exact rationals).  Every price the
adapters build is an exact multiple of 1/100 already, so the tie-breaking
convention is immaterial. -/
def round2 (q : ℚ) : ℚ :=
  ((Int.fdiv (2 * (q * 100).num + (q * 100).den) (2 * (q * 100).den) : ℤ) : ℚ) / 100

/-- ASCII lower-casing of one character (model of `str.lower` per char). -/
def lowerChar (c : Char) : Char :=
  if 'A' ≤ c && c ≤ 'Z' then Char.ofNat (c.toNat + 32) else c

/-- ASCII upper-casing of one character. -/
def upperChar (c : Char) : Char :=
  if 'a' ≤ c && c ≤ 'z' then Char.ofNat (c.toNat - 32) else c

/-- Model of Python `str.lower()` (the provider names are ASCII). -/
def pyLower (s : String) : String := String.mk (s.toList.map lowerChar)

/-- Split a string at every `','` (model of Python `s.split(",")`). -/
def splitCommaAux : List Char → List Char → List String
  | [], acc => [String.mk acc.reverse]
  | c :: cs, acc =>
    if c = ',' then String.mk acc.reverse :: splitCommaAux cs []
    else splitCommaAux cs (c :: acc)

/-- Model of Python `s.split(",")`. -/
def splitComma (s : String) : List String := splitCommaAux s.toList []

/-- Drop leading and trailing whitespace from a character list. -/
def stripChars (l : List Char) : List Char :=
  ((l.dropWhile Char.isWhitespace).reverse.dropWhile Char.isWhitespace).reverse

/-- Model of Python `str.strip()`. -/
def pyStrip (s : String) : String := String.mk (stripChars s.toList)

/-- Model of Python `str.title()`: the first letter of each alphabetic run is
uppercased, the following letters lowercased. -/
def pyTitleAux : List Char → Bool → List Char
  | [], _ => []
  | c :: cs, prevAlpha =>
    if c.isAlpha then
      (if prevAlpha then lowerChar c else upperChar c) :: pyTitleAux cs true
    else
      c :: pyTitleAux cs false

/-- Model of Python `str.title()` on a string. -/
def pyTitle (s : String) : String := String.mk (pyTitleAux s.toList false)

/-- Embedding of the `ProviderResult` pydantic model (src/main.py lines
47-57). -/
structure ProviderResult where
  sku : String
  title : String
  image_url : Option String := Option.none
  url : Option String := Option.none
  merchant : String
  price : ℚ
  currency : String := "INR"
  rating : Option ℚ := Option.none
  total_reviews : Option Int := Option.none
  availability : Option String := Option.none
deriving DecidableEq

/-- The mock Amazon item for index `i` (src/main.py lines 73-87). -/
def amazonMockItem (query : String) (i : Nat) : ProviderResult :=
  { sku := "AMZ-" ++ toString i
    title := pyTitle query ++ " - Amazon Variant " ++ toString i
    image_url := some "https://images.unsplash.com/photo-1517336714731-489689fd1ca8?q=80&w=600"
    url := some "https://www.amazon.in/"
    merchant := "amazon"
    price := round2 (999 + i * (101 / 2 : ℚ))
    currency := "INR"
    rating := some (21 / 5 : ℚ)
    total_reviews := some (1200 + i * 15)
    availability := some "In Stock" }

/-- The mock Flipkart item for index `i` (src/main.py lines 97-111). -/
def flipkartMockItem (query : String) (i : Nat) : ProviderResult :=
  { sku := "FK-" ++ toString i
    title := pyTitle query ++ " - Flipkart Variant " ++ toString i
    image_url := some "https://images.unsplash.com/photo-1516387938699-a93567ec168e?q=80&w=600"
    url := some "https://www.flipkart.com/"
    merchant := "flipkart"
    price := round2 (979 + i * (483 / 10 : ℚ))
    currency := "INR"
    rating := some (41 / 10 : ℚ)
    total_reviews := some (900 + i * 25)
    availability := some "In Stock" }

/-- Embedding of `fetch_amazon` (src/main.py lines 69-92): mock data for
indices `1..limit` when the Amazon keys are absent, the empty list when they
are configured. -/
def fetch_amazon (env : Env) (query : String) (limit : Nat) : List ProviderResult :=
  if has_amazon_keys env then []
  else (List.range limit).map fun j => amazonMockItem query (j + 1)

/-- Embedding of `fetch_flipkart` (src/main.py lines 95-115). -/
def fetch_flipkart (env : Env) (query : String) (limit : Nat) : List ProviderResult :=
  if has_flipkart_keys env then []
  else (List.range limit).map fun j => flipkartMockItem query (j + 1)

/-- Embedding of the `providers_status` route (src/main.py lines 148-157). -/
structure ProvidersStatus where
  amazon_configured : Bool
  flipkart_configured : Bool
deriving DecidableEq

/-- The `/providers` response of `src/main.py`. -/
def providers_status (env : Env) : ProvidersStatus :=
  { amazon_configured := has_amazon_keys env
    flipkart_configured := has_flipkart_keys env }

/-- Embedding of the async `providers` route (src/backend/main.py lines
77-84): name/enabled pairs, where `AMAZON_KEYS_PRESENT` and
`FLIPKART_KEYS_PRESENT` (lines 20-28) are the `all`-truthiness of the same
environment variables as `has_amazon_keys`/`has_flipkart_keys`. -/
def b_providers (env : Env) : List (String × Bool) :=
  [("amazon", has_amazon_keys env), ("flipkart", has_flipkart_keys env)]

/-- Embedding of the provider-list parsing in `search_products` (src/main.py
line 192): split the comma-separated parameter (defaulting to both providers
when the parameter is absent or empty, since Python treats `""` as falsy),
strip and lowercase each part, and drop parts that are empty after
stripping. -/
def parse_providers (providers : Option String) : List String :=
  (match providers with
   | some s => if s = "" then ["amazon", "flipkart"] else splitComma s
   | Option.none => ["amazon", "flipkart"]).filterMap
    fun (p : String) =>
      if pyStrip p = "" then Option.none else some (pyLower (pyStrip p))

/-- The listing document built for one result (src/main.py lines 203-215). -/
structure ListingDoc where
  sku : String
  title : String
  image_url : Option String
  url : Option String
  merchant : String
  price : ℚ
  currency : String
  rating : Option ℚ
  total_reviews : Option Int
  availability : Option String
  fetched_at : Nat
deriving DecidableEq

/-- The price-history document built for one result (src/main.py lines
221-230). -/
structure PriceHistoryDoc where
  sku : String
  merchant : String
  price : ℚ
  currency : String
  timestamp : Nat
deriving DecidableEq

/-- The analytics document for the whole request (src/main.py lines
235-239). -/
structure SearchQueryDoc where
  query : String
  providers : List String
  created_at : Nat
deriving DecidableEq

/-- One `create_document` call attempted on the search path of
`search_products`, tagged by target collection. -/
inductive PersistCall where
  | listing (d : ListingDoc)
  | pricehistory (d : PriceHistoryDoc)
  | searchquery (d : SearchQueryDoc)
deriving DecidableEq

/-- The listing document for a result item at timestamp `now`. -/
def listing_doc (item : ProviderResult) (now : Nat) : ListingDoc :=
  { sku := item.sku, title := item.title, image_url := item.image_url
    url := item.url, merchant := item.merchant, price := item.price
    currency := item.currency, rating := item.rating
    total_reviews := item.total_reviews, availability := item.availability
    fetched_at := now }

/-- The price-history document for a result item at timestamp `now`. -/
def ph_doc (item : ProviderResult) (now : Nat) : PriceHistoryDoc :=
  { sku := item.sku, merchant := item.merchant, price := item.price
    currency := item.currency, timestamp := now }

/-- Embedding of the `SearchResponse` pydantic model (src/main.py lines
122-125). -/
structure SearchResponse where
  query : String
  providers : List String
  results : List ProviderResult
deriving DecidableEq

/-- The concatenated adapter results of `search_products` (src/main.py lines
194-198): amazon's results, when selected, followed by flipkart's. -/
def search_results (env : Env) (q : String) (limit : Nat)
    (providers : Option String) : List ProviderResult :=
  (if "amazon" ∈ parse_providers providers then fetch_amazon env q limit else [])
    ++ (if "flipkart" ∈ parse_providers providers then fetch_flipkart env q limit else [])

/-- The `create_document` calls `search_products` attempts, in program order
(src/main.py lines 200-241): for each result a listing document then a
price-history document, and finally one search-query analytics document.
`now` is the single `datetime.now(timezone.utc)` read at line 201. -/
def search_calls (env : Env) (q : String) (limit : Nat)
    (providers : Option String) (now : Nat) : List PersistCall :=
  ((search_results env q limit providers).flatMap fun item =>
      [PersistCall.listing (listing_doc item now),
       PersistCall.pricehistory (ph_doc item now)])
    ++ [PersistCall.searchquery ⟨q, parse_providers providers, now⟩]

/-- Embedding of `search_products` (src/main.py lines 190-243).  Every
`create_document` call on this path is wrapped in `try/except Exception:
pass`, so the calls that raise (per the failure oracle `fails`) are simply
skipped; the function returns the HTTP response together with the list of
documents actually persisted. -/
def search_products (env : Env) (fails : PersistCall → Bool) (q : String)
    (limit : Nat) (providers : Option String) (now : Nat) :
    SearchResponse × List PersistCall :=
  (⟨q, parse_providers providers, search_results env q limit providers⟩,
   (search_calls env q limit providers now).filter fun c => !fails c)

/-- Embedding of the mock items of the async service's `fetch_amazon`
(src/backend/main.py lines 32-43); prices there are integers. -/
structure BItem where
  sku : String
  title : String
  image_url : String
  url : String
  merchant : String
  price : Int
  currency : String
deriving DecidableEq

/-- The async service's mock Amazon item for index `i` (src/backend/main.py
lines 32-43). -/
def bAmazonMockItem (query : String) (i : Nat) : BItem :=
  { sku := "AMZ-" ++ toString i
    title := "Amazon mock item " ++ toString i ++ " for " ++ query
    image_url := "https://via.placeholder.com/200x200.png?text=Amazon"
    url := "https://www.amazon.in/"
    merchant := "amazon"
    price := 999 + (i : Int) * 10
    currency := "INR" }

/-- The async service's mock Flipkart item for index `i` (src/backend/main.py
lines 49-60). -/
def bFlipkartMockItem (query : String) (i : Nat) : BItem :=
  { sku := "FK-" ++ toString i
    title := "Flipkart mock item " ++ toString i ++ " for " ++ query
    image_url := "https://via.placeholder.com/200x200.png?text=Flipkart"
    url := "https://www.flipkart.com/"
    merchant := "flipkart"
    price := 899 + (i : Int) * 12
    currency := "INR" }

/-- Embedding of `fetch_amazon` (src/backend/main.py lines 30-45);
`AMAZON_KEYS_PRESENT` (lines 20-24) is `all` of the three variables'
truthiness, read from the process environment at startup. -/
def b_fetch_amazon (env : Env) (query : String) (limit : Nat) : List BItem :=
  if has_amazon_keys env then []
  else (List.range limit).map fun j => bAmazonMockItem query (j + 1)

/-- Embedding of `fetch_flipkart` (src/backend/main.py lines 47-62). -/
def b_fetch_flipkart (env : Env) (query : String) (limit : Nat) : List BItem :=
  if has_flipkart_keys env then []
  else (List.range limit).map fun j => bFlipkartMockItem query (j + 1)

/-- Embedding of the provider-list parsing in the async `search`
(src/backend/main.py line 88): no emptiness filter there, and the default
list is used verbatim when the parameter is absent or empty. -/
def b_parse_providers (providers : Option String) : List String :=
  match providers with
  | some s =>
    if s = "" then ["amazon", "flipkart"]
    else (splitComma s).map fun p => pyLower (pyStrip p)
  | Option.none => ["amazon", "flipkart"]

/-- One `create_document` call of the async `search` handler
(src/backend/main.py lines 96-104). -/
inductive BCall where
  | searchquery (query : String) (providers : List String) (limit : Nat)
  | listing (r : BItem)
  | pricehistory (sku merchant : String) (price : Int) (currency : String)
deriving DecidableEq

/-- Run a sequence of awaited `create_document` calls with no exception
handler around them: the first failing call raises out of the handler. -/
def run_creates (fails : BCall → Bool) : List BCall → Except String Unit
  | [] => Except.ok ()
  | c :: cs => if fails c then Except.error "db" else run_creates fails cs

/-- Embedding of the async `search` handler (src/backend/main.py lines
86-106).  The `create_document` calls are not wrapped in `try/except`, so a
persistence failure propagates and no response body is produced; on success
the handler returns `{"results": results}`. -/
def b_search (env : Env) (fails : BCall → Bool) (query : String) (limit : Nat)
    (providers : Option String) : Except String (List BItem) :=
  let prov_list := b_parse_providers providers
  let results :=
    (if "amazon" ∈ prov_list then b_fetch_amazon env query limit else [])
      ++ (if "flipkart" ∈ prov_list then b_fetch_flipkart env query limit else [])
  let calls :=
    BCall.searchquery query prov_list limit
      :: (results.flatMap fun r =>
            [BCall.listing r, BCall.pricehistory r.sku r.merchant r.price r.currency])
  match run_creates fails calls with
  | Except.error e => Except.error e
  | Except.ok _ => Except.ok results

/-- A stored favorite record (collection `favorite`; schema as in
`src/schemas.py` lines 43-52 plus the Mongo `_id`, modelled by its 24-char
hex string). -/
structure FavoriteRecord where
  _id : String
  user_id : String
  sku : String
  title : String
  image_url : Option String
  url : Option String
  merchant : String
  price : ℚ
  currency : String
  created_at : Nat
deriving DecidableEq

/-- Hexadecimal digit test (`0-9`, `a-f`, `A-F`). -/
def isHexChar (c : Char) : Bool :=
  c.isDigit || ('a' ≤ c && c ≤ 'f') || ('A' ≤ c && c ≤ 'F')

/-- Model of `bson.ObjectId(s)` validity on a string argument: exactly 24
hexadecimal characters, otherwise the constructor raises `InvalidId`. -/
def isValidObjectId (s : String) : Bool :=
  s.length == 24 && s.toList.all isHexChar

/-- Model of Mongo `delete_one({"_id": oid})` on the favorite collection in
stored order: remove the first record whose `_id` matches, returning the
deleted count (0 or 1) and the remaining collection. -/
def delete_one : List FavoriteRecord → String → Nat × List FavoriteRecord
  | [], _ => (0, [])
  | r :: rs, oid =>
    if r._id = oid then (1, rs)
    else
      let p := delete_one rs oid
      (p.1, r :: p.2)

/-- Embedding of `delete_favorite` (src/main.py lines 290-300): an invalid
identifier makes `ObjectId` raise, which the handler converts to an HTTP 400
client error; otherwise the response reports `ok := deleted_count == 1` and
the handler never errors.  The value carries the response flag, the deleted
count and the collection after the call. -/
def delete_favorite (db : List FavoriteRecord) (fav_id : String) :
    Except Nat (Bool × Nat × List FavoriteRecord) :=
  if isValidObjectId fav_id then
    let p := delete_one db fav_id
    Except.ok (p.1 == 1, p.1, p.2)
  else Except.error 400

/-- Ordering used by `list_favorites`' Mongo sort `("created_at", -1)`:
newest first. -/
def createdDesc (a b : FavoriteRecord) : Prop := b.created_at ≤ a.created_at

instance : DecidableRel createdDesc := fun a b =>
  inferInstanceAs (Decidable (b.created_at ≤ a.created_at))

instance : IsTotal FavoriteRecord createdDesc :=
  ⟨fun a b => Nat.le_total b.created_at a.created_at⟩

instance : IsTrans FavoriteRecord createdDesc :=
  ⟨fun _ _ _ h1 h2 => le_trans h2 h1⟩

/-- Embedding of `list_favorites` (src/main.py lines 282-287): all of the
user's favorites, sorted by `created_at` descending (Mongo's sort modelled by
a stable sort), with no result cap. -/
def list_favorites (db : List FavoriteRecord) (user_id : String) :
    List FavoriteRecord :=
  List.insertionSort createdDesc (db.filter fun r => r.user_id = user_id)

/-- Embedding of the async `list_favorites` (src/backend/main.py lines
138-141): `get_documents("favorite", {"user_id": user_id}, 200)` filters by
user and caps at 200 records in stored order, with no sort. -/
def b_list_favorites (db : List FavoriteRecord) (user_id : String) :
    List FavoriteRecord :=
  ((db.filter fun r => r.user_id = user_id).take 200)

/-- Set key `k` to `v` with Python `{**data, k: v}` semantics: an existing
key keeps its position and gets the new value, a fresh key is appended. -/
def dictSet (d : Doc) (k : String) (v : Value) : Doc :=
  if (List.lookup k d).isSome then
    d.map fun kv => if kv.1 = k then (kv.1, v) else kv
  else d ++ [(k, v)]

/-- The document store of `src/backend/database.py`: for each collection name
the stored records in insertion order, each paired with its identifier, plus
a source of fresh identifiers (modelling the driver's ObjectId generation). -/
structure DbState where
  colls : String → List (String × Doc)
  nextId : Nat

/-- Embedding of `create_document` (src/backend/database.py lines 18-22):
insert `{**data, "created_at": now}` as one new record of `collection` and
return the new record's identifier as a string (`str(res.inserted_id)`). -/
def create_document (st : DbState) (collection : String) (data : Doc)
    (now : Nat) : String × DbState :=
  let doc := dictSet data "created_at" (Value.datetime now)
  let oid := toString st.nextId
  (oid,
   { colls := fun c =>
       if c = collection then st.colls c ++ [(oid, doc)] else st.colls c
     nextId := st.nextId + 1 })

/-- An environment with no variables set: both adapters run in mock mode. -/
def envNone : Env := fun _ => Option.none

/-- An environment with every variable set non-empty: both providers
configured. -/
def envAll : Env := fun _ => some "configured"

/-- A failure oracle under which every persistence call succeeds. -/
def noFail : PersistCall → Bool := fun _ => false

/-- The single per-request timestamp carried by a persisted search-path
document: `fetched_at` for listings, `timestamp` for price history,
`created_at` for the analytics record. -/
def persist_time : PersistCall → Nat
  | .listing d => d.fetched_at
  | .pricehistory d => d.timestamp
  | .searchquery d => d.created_at

/-- Project the price-history document out of a persistence call. -/
def ph_of : PersistCall → Option PriceHistoryDoc
  | .pricehistory d => some d
  | _ => Option.none

/-- A sample stored favorite with a well-formed ObjectId. -/
def demoFav : FavoriteRecord :=
  { _id := "0123456789abcdef01234567", user_id := "u1", sku := "AMZ-1"
    title := "Phone", image_url := Option.none, url := Option.none
    merchant := "amazon", price := 999, currency := "INR", created_at := 5 }

/-- An older favorite of user `u` (created at tick 1). -/
def favA : FavoriteRecord :=
  { _id := "aaaaaaaaaaaaaaaaaaaaaaaa", user_id := "u", sku := "AMZ-1"
    title := "A", image_url := Option.none, url := Option.none
    merchant := "amazon", price := 999, currency := "INR", created_at := 1 }

/-- A newer favorite of user `u` (created at tick 2), stored after `favA`. -/
def favB : FavoriteRecord :=
  { _id := "bbbbbbbbbbbbbbbbbbbbbbbb", user_id := "u", sku := "FK-1"
    title := "B", image_url := Option.none, url := Option.none
    merchant := "flipkart", price := 899, currency := "INR", created_at := 2 }

/-- An empty document store. -/
def demoDb0 : DbState := { colls := fun _ => [], nextId := 0 }

/-- A sample payload to insert. -/
def demoData : Doc := [("user_id", Value.str "u1"), ("sku", Value.str "AMZ-1")]

theorem round2_eq_self (q : ℚ) (m : ℤ) (h : q * 100 = (m : ℚ)) :
    round2 q = q := by
  have hnum : (q * 100).num = m := by rw [h, Rat.num_intCast]
  have hden : (q * 100).den = 1 := by rw [h, Rat.den_intCast]
  unfold round2
  rw [hnum, hden]
  have h2 : Int.fdiv (2 * m + ((1 : Nat) : Int)) (2 * ((1 : Nat) : Int)) = m := by
    rw [Int.fdiv_eq_ediv _ (by norm_num)]
    omega
  rw [h2, div_eq_iff (by norm_num : (100 : ℚ) ≠ 0)]
  exact h.symm

theorem amazon_price (q : String) (i : Nat) :
    (amazonMockItem q i).price = 999 + (i : ℚ) * (101 / 2) := by
  show round2 (999 + (i : ℚ) * (101 / 2)) = _
  apply round2_eq_self _ (99900 + 5050 * (i : ℤ))
  push_cast
  ring

theorem flipkart_price (q : String) (i : Nat) :
    (flipkartMockItem q i).price = 979 + (i : ℚ) * (483 / 10) := by
  show round2 (979 + (i : ℚ) * (483 / 10)) = _
  apply round2_eq_self _ (97900 + 4830 * (i : ℤ))
  push_cast
  ring

theorem fetch_amazon_mock (env : Env) (q : String) (n : Nat)
    (ha : has_amazon_keys env = false) :
    fetch_amazon env q n = (List.range n).map fun j => amazonMockItem q (j + 1) := by
  simp [fetch_amazon, ha]

theorem fetch_flipkart_mock (env : Env) (q : String) (n : Nat)
    (hf : has_flipkart_keys env = false) :
    fetch_flipkart env q n = (List.range n).map fun j => flipkartMockItem q (j + 1) := by
  simp [fetch_flipkart, hf]

/-- C1: with no provider credentials configured, `fetch_amazon(q, n)` and
`fetch_flipkart(q, n)` (in both service variants) each return exactly `n`
results whose skus are `AMZ-1..AMZ-n` (resp. `FK-1..FK-n`) in index order,
with price a fixed affine function of the one-based index — `999 + 50.5·i`
and `979 + 48.3·i` in `src/main.py`, `999 + 10·i` and `899 + 12·i` in
`src/backend/main.py` — hence strictly increasing along the list. -/
theorem fetch_mock_spec (env : Env) (q : String) (n : Nat)
    (ha : has_amazon_keys env = false) (hf : has_flipkart_keys env = false) :
    ((fetch_amazon env q n).length = n
      ∧ (fetch_amazon env q n).map ProviderResult.sku
          = (List.range n).map (fun j => "AMZ-" ++ toString (j + 1))
      ∧ (fetch_amazon env q n).map ProviderResult.price
          = (List.range n).map (fun (j : ℕ) => 999 + ((j : ℚ) + 1) * (101 / 2))
      ∧ ((fetch_amazon env q n).map ProviderResult.price).Pairwise (· < ·))
    ∧ ((fetch_flipkart env q n).length = n
      ∧ (fetch_flipkart env q n).map ProviderResult.sku
          = (List.range n).map (fun j => "FK-" ++ toString (j + 1))
      ∧ (fetch_flipkart env q n).map ProviderResult.price
          = (List.range n).map (fun (j : ℕ) => 979 + ((j : ℚ) + 1) * (483 / 10))
      ∧ ((fetch_flipkart env q n).map ProviderResult.price).Pairwise (· < ·))
    ∧ ((b_fetch_amazon env q n).length = n
      ∧ (b_fetch_amazon env q n).map BItem.sku
          = (List.range n).map (fun j => "AMZ-" ++ toString (j + 1))
      ∧ (b_fetch_amazon env q n).map BItem.price
          = (List.range n).map (fun (j : ℕ) => 999 + ((j : ℤ) + 1) * 10)
      ∧ ((b_fetch_amazon env q n).map BItem.price).Pairwise (· < ·))
    ∧ ((b_fetch_flipkart env q n).length = n
      ∧ (b_fetch_flipkart env q n).map BItem.sku
          = (List.range n).map (fun j => "FK-" ++ toString (j + 1))
      ∧ (b_fetch_flipkart env q n).map BItem.price
          = (List.range n).map (fun (j : ℕ) => 899 + ((j : ℤ) + 1) * 12)
      ∧ ((b_fetch_flipkart env q n).map BItem.price).Pairwise (· < ·)) := by
  have eA := fetch_amazon_mock env q n ha
  have eF := fetch_flipkart_mock env q n hf
  have eBA : b_fetch_amazon env q n
      = (List.range n).map (fun j => bAmazonMockItem q (j + 1)) := by
    simp [b_fetch_amazon, ha]
  have eBF : b_fetch_flipkart env q n
      = (List.range n).map (fun j => bFlipkartMockItem q (j + 1)) := by
    simp [b_fetch_flipkart, hf]
  have pA : (fetch_amazon env q n).map ProviderResult.price
      = (List.range n).map (fun (j : ℕ) => 999 + ((j : ℚ) + 1) * (101 / 2)) := by
    rw [eA, List.map_map]
    apply List.map_congr_left
    intro j _
    show (amazonMockItem q (j + 1)).price = _
    rw [amazon_price]
    push_cast
    ring
  have pF : (fetch_flipkart env q n).map ProviderResult.price
      = (List.range n).map (fun (j : ℕ) => 979 + ((j : ℚ) + 1) * (483 / 10)) := by
    rw [eF, List.map_map]
    apply List.map_congr_left
    intro j _
    show (flipkartMockItem q (j + 1)).price = _
    rw [flipkart_price]
    push_cast
    ring
  have pBA : (b_fetch_amazon env q n).map BItem.price
      = (List.range n).map (fun (j : ℕ) => 999 + ((j : ℤ) + 1) * 10) := by
    rw [eBA, List.map_map]
    rfl
  have pBF : (b_fetch_flipkart env q n).map BItem.price
      = (List.range n).map (fun (j : ℕ) => 899 + ((j : ℤ) + 1) * 12) := by
    rw [eBF, List.map_map]
    rfl
  refine ⟨⟨?_, ?_, pA, ?_⟩, ⟨?_, ?_, pF, ?_⟩, ⟨?_, ?_, pBA, ?_⟩, ⟨?_, ?_, pBF, ?_⟩⟩
  · rw [eA]; simp
  · rw [eA, List.map_map]; rfl
  · rw [pA, List.pairwise_map]
    refine (List.pairwise_lt_range n).imp ?_
    intro a b hab
    have hq : (a : ℚ) < b := by exact_mod_cast hab
    linarith
  · rw [eF]; simp
  · rw [eF, List.map_map]; rfl
  · rw [pF, List.pairwise_map]
    refine (List.pairwise_lt_range n).imp ?_
    intro a b hab
    have hq : (a : ℚ) < b := by exact_mod_cast hab
    linarith
  · rw [eBA]; simp
  · rw [eBA, List.map_map]; rfl
  · rw [pBA, List.pairwise_map]
    refine (List.pairwise_lt_range n).imp ?_
    intro a b hab
    omega
  · rw [eBF]; simp
  · rw [eBF, List.map_map]; rfl
  · rw [pBF, List.pairwise_map]
    refine (List.pairwise_lt_range n).imp ?_
    intro a b hab
    omega

/-- Witness for C1 at a concrete input: the credential hypotheses hold for
the empty environment, and the theorem instantiates at `q = "phone"`,
`n = 3`. -/
theorem fetch_mock_spec_witness :
    has_amazon_keys envNone = false
    ∧ has_flipkart_keys envNone = false
    ∧ (fetch_amazon envNone "phone" 3).map ProviderResult.sku
        = (List.range 3).map (fun j => "AMZ-" ++ toString (j + 1)) :=
  ⟨rfl, rfl, (fetch_mock_spec envNone "phone" 3 rfl rfl).1.2.1⟩

/-- C6: when the three Amazon credential variables are present (set to
non-empty strings), both `/providers` routes report amazon as
configured/enabled and both `fetch_amazon` variants return the empty list for
every query and every limit; symmetrically for the two Flipkart
credentials. -/
theorem configured_keys_spec (env : Env) :
    ((truthy (env "AMAZON_ACCESS_KEY") = true →
      truthy (env "AMAZON_SECRET_KEY") = true →
      truthy (env "AMAZON_PARTNER_TAG") = true →
      has_amazon_keys env = true
      ∧ (providers_status env).amazon_configured = true
      ∧ List.lookup "amazon" (b_providers env) = some true
      ∧ ∀ q n, fetch_amazon env q n = [] ∧ b_fetch_amazon env q n = []))
    ∧ ((truthy (env "FLIPKART_AFFILIATE_ID") = true →
      truthy (env "FLIPKART_AFFILIATE_TOKEN") = true →
      has_flipkart_keys env = true
      ∧ (providers_status env).flipkart_configured = true
      ∧ List.lookup "flipkart" (b_providers env) = some true
      ∧ ∀ q n, fetch_flipkart env q n = [] ∧ b_fetch_flipkart env q n = [])) := by
  constructor
  · intro h1 h2 h3
    have hk : has_amazon_keys env = true := by
      simp [has_amazon_keys, h1, h2, h3]
    exact ⟨hk, by simp [providers_status, hk],
      by simp [b_providers, List.lookup, hk],
      fun q n => ⟨by simp [fetch_amazon, hk], by simp [b_fetch_amazon, hk]⟩⟩
  · intro h1 h2
    have hk : has_flipkart_keys env = true := by
      simp [has_flipkart_keys, h1, h2]
    exact ⟨hk, by simp [providers_status, hk],
      by simp [b_providers, List.lookup, hk],
      fun q n => ⟨by simp [fetch_flipkart, hk], by simp [b_fetch_flipkart, hk]⟩⟩

/-- Witness for C6: in the fully configured environment the truthiness
hypotheses hold and both adapters return the empty list at concrete
queries and limits. -/
theorem configured_keys_spec_witness :
    truthy (envAll "AMAZON_ACCESS_KEY") = true
    ∧ fetch_amazon envAll "phone" 7 = []
    ∧ truthy (envAll "FLIPKART_AFFILIATE_ID") = true
    ∧ fetch_flipkart envAll "tv" 4 = [] :=
  ⟨rfl, (((configured_keys_spec envAll).1 rfl rfl rfl).2.2.2 "phone" 7).1,
   rfl, (((configured_keys_spec envAll).2 rfl rfl).2.2.2 "tv" 4).1⟩

/-- C3: whenever the parsed provider list contains both providers — in
whatever order they appeared in the request's comma-separated parameter, or
by default — the response's results are the amazon adapter's list followed by
the flipkart adapter's list, each in per-provider index order. -/
theorem search_both_providers_order (env : Env) (fails : PersistCall → Bool)
    (q : String) (limit : Nat) (providers : Option String) (now : Nat)
    (hA : "amazon" ∈ parse_providers providers)
    (hF : "flipkart" ∈ parse_providers providers) :
    (search_products env fails q limit providers now).1.results
      = fetch_amazon env q limit ++ fetch_flipkart env q limit := by
  simp only [search_products, search_results, if_pos hA, if_pos hF]

/-- Witness for C3 with the request order reversed: `providers =
"flipkart, amazon"` still yields amazon's results first, and at `limit = 2`
the skus are `AMZ-1, AMZ-2, FK-1, FK-2`. -/
theorem search_both_providers_order_witness :
    ("amazon" ∈ parse_providers (some "flipkart, amazon"))
    ∧ ("flipkart" ∈ parse_providers (some "flipkart, amazon"))
    ∧ (search_products envNone noFail "phone" 2 (some "flipkart, amazon") 0).1.results
        = fetch_amazon envNone "phone" 2 ++ fetch_flipkart envNone "phone" 2
    ∧ (search_products envNone noFail "phone" 2 (some "flipkart, amazon") 0).1.results.map
        ProviderResult.sku = ["AMZ-1", "AMZ-2", "FK-1", "FK-2"] :=
  ⟨by decide, by decide,
   search_both_providers_order envNone noFail "phone" 2 (some "flipkart, amazon") 0
     (by decide) (by decide),
   by decide⟩

/-- C4 counterexample: for `providers=bogus` the handler does return an empty
results list without error, but the response's effective provider list is
`["bogus"]`, not the empty list the claim asserts — the unknown name is
echoed in the response's `providers` field. -/
theorem search_bogus_counterexample :
    (search_products envNone noFail "phone" 5 (some "bogus") 0).1.results = []
    ∧ (search_products envNone noFail "phone" 5 (some "bogus") 0).1.providers = ["bogus"]
    ∧ (search_products envNone noFail "phone" 5 (some "bogus") 0).1.providers ≠ [] :=
  ⟨by decide, by decide, by decide⟩

/-- C4 amended: when every parsed provider name is unknown the handler does
not error and returns an empty results list, but the response's `providers`
field echoes the parsed requested names rather than being empty; unknown
names are silently ignored only for adapter invocation. -/
theorem search_unknown_providers (env : Env) (fails : PersistCall → Bool)
    (q : String) (limit : Nat) (s : String) (now : Nat)
    (h : ∀ p ∈ parse_providers (some s), p ≠ "amazon" ∧ p ≠ "flipkart") :
    (search_products env fails q limit (some s) now).1.results = []
    ∧ (search_products env fails q limit (some s) now).1.providers
        = parse_providers (some s) := by
  have hA : "amazon" ∉ parse_providers (some s) := fun hm => (h _ hm).1 rfl
  have hF : "flipkart" ∉ parse_providers (some s) := fun hm => (h _ hm).2 rfl
  constructor
  · simp only [search_products, search_results, if_neg hA, if_neg hF,
      List.append_nil]
  · rfl

/-- Witness for the amended C4 at `providers = "bogus"`. -/
theorem search_unknown_providers_witness :
    (∀ p ∈ parse_providers (some "bogus"), p ≠ "amazon" ∧ p ≠ "flipkart")
    ∧ (search_products envNone noFail "phone" 5 (some "bogus") 0).1.results = [] :=
  ⟨by decide,
   (search_unknown_providers envNone noFail "phone" 5 "bogus" 0 (by decide)).1⟩

/-- C2 counterexample: in the async service (src/backend/main.py lines
95-104) the search path's `create_document` calls are not wrapped in any
exception handler, so when persistence fails the handler raises instead of
returning the concatenated result list. -/
theorem b_search_persistence_failure :
    b_search envNone (fun _ => true) "phone" 1 Option.none = Except.error "db" := rfl

/-- C2 amended: in `src/main.py`'s `search_products` every `create_document`
call on the search path is individually wrapped in `try/except: pass`, so the
response always carries the full concatenated adapter results and is entirely
independent of which persistence calls fail; the async variant's `search`
instead propagates persistence failures (see the counterexample). -/
theorem search_response_ignores_persistence (env : Env)
    (fails fails2 : PersistCall → Bool) (q : String) (limit : Nat)
    (providers : Option String) (now : Nat) :
    (search_products env fails q limit providers now).1.results
      = search_results env q limit providers
    ∧ (search_products env fails q limit providers now).1
        = (search_products env fails2 q limit providers now).1 :=
  ⟨rfl, rfl⟩

theorem delete_one_not_mem (db : List FavoriteRecord) (oid : String)
    (h : oid ∉ db.map FavoriteRecord._id) : delete_one db oid = (0, db) := by
  induction db with
  | nil => rfl
  | cons r rs ih =>
    simp only [List.map_cons, List.mem_cons, not_or] at h
    have hne : ¬ (r._id = oid) := fun heq => h.1 heq.symm
    simp [delete_one, hne, ih h.2]

theorem delete_one_mem (db : List FavoriteRecord) (oid : String)
    (hnd : (db.map FavoriteRecord._id).Nodup)
    (h : oid ∈ db.map FavoriteRecord._id) :
    (delete_one db oid).1 = 1
    ∧ oid ∉ (delete_one db oid).2.map FavoriteRecord._id := by
  induction db with
  | nil => simp at h
  | cons r rs ih =>
    simp only [List.map_cons, List.nodup_cons] at hnd
    by_cases heq : r._id = oid
    · constructor
      · simp [delete_one, heq]
      · simp only [delete_one, if_pos heq]
        exact heq ▸ hnd.1
    · have h2 : oid ∈ rs.map FavoriteRecord._id := by
        rcases List.mem_cons.mp h with he | hm
        · exact absurd he.symm heq
        · exact hm
      obtain ⟨ih1, ih2⟩ := ih hnd.2 h2
      constructor
      · simp [delete_one, heq, ih1]
      · simp only [delete_one, if_neg heq, List.map_cons, List.mem_cons, not_or]
        exact ⟨fun he => heq he.symm, ih2⟩

/-- C5: deleting a favorite by identifier: a syntactically invalid identifier
(one `ObjectId` rejects) yields an HTTP 400 client error; a valid identifier
whose record exists yields a success response reporting exactly one record
removed; deleting the same identifier again yields a success response (not an
error) reporting zero records removed. -/
theorem delete_favorite_spec (db : List FavoriteRecord) (fav_id : String)
    (hnd : (db.map FavoriteRecord._id).Nodup) :
    (isValidObjectId fav_id = false →
      delete_favorite db fav_id = Except.error 400)
    ∧ (isValidObjectId fav_id = true → fav_id ∉ db.map FavoriteRecord._id →
      delete_favorite db fav_id = Except.ok (false, 0, db))
    ∧ (isValidObjectId fav_id = true → fav_id ∈ db.map FavoriteRecord._id →
      ∃ db2, delete_favorite db fav_id = Except.ok (true, 1, db2)
        ∧ delete_favorite db2 fav_id = Except.ok (false, 0, db2)) := by
  refine ⟨?_, ?_, ?_⟩
  · intro h
    simp [delete_favorite, h]
  · intro hv h
    simp [delete_favorite, hv, delete_one_not_mem db fav_id h]
  · intro hv h
    obtain ⟨h1, h2⟩ := delete_one_mem db fav_id hnd h
    refine ⟨(delete_one db fav_id).2, ?_, ?_⟩
    · simp [delete_favorite, hv, h1]
    · simp [delete_favorite, hv, delete_one_not_mem _ _ h2]

/-- Witness for C5: a one-record collection whose record carries a
well-formed ObjectId; the first delete reports one removed, the second
reports zero without error. -/
theorem delete_favorite_spec_witness :
    ([demoFav].map FavoriteRecord._id).Nodup
    ∧ isValidObjectId "0123456789abcdef01234567" = true
    ∧ "0123456789abcdef01234567" ∈ [demoFav].map FavoriteRecord._id
    ∧ ∃ db2,
        delete_favorite [demoFav] "0123456789abcdef01234567"
          = Except.ok (true, 1, db2)
        ∧ delete_favorite db2 "0123456789abcdef01234567"
          = Except.ok (false, 0, db2) :=
  ⟨by decide, by decide, by decide,
   (delete_favorite_spec [demoFav] "0123456789abcdef01234567"
      (by decide)).2.2 (by decide) (by decide)⟩

/-- C7 counterexample: two favorites of user `u` stored oldest-first; the
async `GET /favorites` handler performs no sort, so the returned creation
times are `[1, 2]` — not sorted newest-first as the claim requires of the
endpoint (while the sync handler sorts but applies no 200-record cap). -/
theorem b_list_favorites_unsorted :
    (b_list_favorites [favA, favB] "u").map FavoriteRecord.created_at = [1, 2]
    ∧ ¬ List.Sorted createdDesc (b_list_favorites [favA, favB] "u") := by
  constructor
  · decide
  · intro hs
    have h12 : createdDesc favA favB := by
      have : b_list_favorites [favA, favB] "u" = [favA, favB] := by decide
      rw [this] at hs
      exact (List.sorted_cons.mp hs).1 favB (by simp)
    simp [createdDesc, favA, favB] at h12

/-- C7 corrected: the sync `list_favorites` returns all of the user's
favorites (no cap) sorted by creation time descending, while the async
variant returns at most 200 of the user's favorites in stored order
(unsorted). -/
theorem list_favorites_spec (db : List FavoriteRecord) (uid : String) :
    List.Perm (list_favorites db uid) (db.filter fun r => r.user_id = uid)
    ∧ List.Sorted createdDesc (list_favorites db uid)
    ∧ (∀ r ∈ list_favorites db uid, r.user_id = uid)
    ∧ b_list_favorites db uid = (db.filter fun r => r.user_id = uid).take 200
    ∧ (b_list_favorites db uid).length ≤ 200 := by
  have hperm := List.perm_insertionSort createdDesc
    (db.filter fun r => r.user_id = uid)
  refine ⟨hperm, List.sorted_insertionSort createdDesc _, ?_, rfl, ?_⟩
  · intro r hr
    have hrf : r ∈ db.filter (fun r => r.user_id = uid) := hperm.mem_iff.mp hr
    exact of_decide_eq_true (List.mem_filter.mp hrf).2
  · exact List.length_take_le 200 _

/-- Witness for C7's corrected statement: on the two-favorite store the sync
handler returns both records (newest first) and `favB`'s owner is `u`. -/
theorem list_favorites_spec_witness :
    favB ∈ list_favorites [favA, favB] "u"
    ∧ favB.user_id = "u"
    ∧ List.Sorted createdDesc (list_favorites [favA, favB] "u") :=
  ⟨by decide,
   (list_favorites_spec [favA, favB] "u").2.2.1 favB (by decide),
   (list_favorites_spec [favA, favB] "u").2.1⟩

/-- C8: `create_document(collection, data)` appends to `collection` exactly
one record — `data` augmented with the server-assigned `created_at`
timestamp — leaves every other collection unchanged, and returns the new
record's identifier as a string. -/
theorem create_document_spec (st : DbState) (coll : String) (data : Doc)
    (now : Nat) :
    (create_document st coll data now).1 = toString st.nextId
    ∧ (create_document st coll data now).2.colls coll
        = st.colls coll
          ++ [(toString st.nextId, dictSet data "created_at" (Value.datetime now))]
    ∧ ((create_document st coll data now).2.colls coll).length
        = (st.colls coll).length + 1
    ∧ (∀ c, c ≠ coll → (create_document st coll data now).2.colls c = st.colls c) := by
  refine ⟨rfl, by simp [create_document], by simp [create_document], ?_⟩
  intro c hc
  simp [create_document, hc]

/-- Witness for C8: inserting a favorite payload into the empty store leaves
the `listing` collection untouched. -/
theorem create_document_spec_witness :
    ("listing" : String) ≠ "favorite"
    ∧ (create_document demoDb0 "favorite" demoData 7).2.colls "listing"
        = demoDb0.colls "listing" :=
  ⟨by decide,
   (create_document_spec demoDb0 "favorite" demoData 7).2.2.2 "listing" (by decide)⟩

theorem persist_time_search_calls (env : Env) (q : String) (limit : Nat)
    (providers : Option String) (now : Nat) (c : PersistCall)
    (hc : c ∈ search_calls env q limit providers now) : persist_time c = now := by
  simp only [search_calls, List.mem_append, List.mem_flatMap, List.mem_cons,
    List.mem_singleton] at hc
  rcases hc with ⟨item, _, hm⟩ | hsq
  · rcases hm with h | h
    · rw [h]; rfl
    · rcases h with h | h
      · rw [h]; rfl
      · simp at h
  · rcases hsq with h | h
    · rw [h]; rfl
    · simp at h

theorem filterMap_ph_flat (l : List ProviderResult) (now : Nat) :
    (l.flatMap fun item =>
        [PersistCall.listing (listing_doc item now),
         PersistCall.pricehistory (ph_doc item now)]).filterMap ph_of
      = l.map fun item => ph_doc item now := by
  induction l with
  | nil => rfl
  | cons hd tl ih =>
    simp only [List.flatMap_cons, List.filterMap_append, ih, List.map_cons]
    rfl

/-- C9: all documents persisted by one `search_products` request share the
single timestamp read at the start of the request — each listing's
`fetched_at`, each price-history record's `timestamp` and the analytics
record's `created_at` equal `now` — and the attempted price-history documents
are exactly the response's result items' sku/merchant/price/currency stamped
with `now`, the actually-persisted ones forming a sublist thereof. -/
theorem search_persist_shared_time (env : Env) (fails : PersistCall → Bool)
    (q : String) (limit : Nat) (providers : Option String) (now : Nat)
    (c : PersistCall)
    (hc : c ∈ (search_products env fails q limit providers now).2) :
    persist_time c = now
    ∧ (search_calls env q limit providers now).filterMap ph_of
        = (search_products env fails q limit providers now).1.results.map
            (fun item => ph_doc item now)
    ∧ ((search_products env fails q limit providers now).2.filterMap ph_of).Sublist
        ((search_products env fails q limit providers now).1.results.map
            (fun item => ph_doc item now)) := by
  have hcalls : (search_calls env q limit providers now).filterMap ph_of
      = (search_products env fails q limit providers now).1.results.map
          (fun item => ph_doc item now) := by
    show (((search_results env q limit providers).flatMap _)
        ++ [PersistCall.searchquery _]).filterMap ph_of = _
    rw [List.filterMap_append, filterMap_ph_flat]
    simp only [List.filterMap_cons, List.filterMap_nil, ph_of, List.append_nil]
    rfl
  refine ⟨?_, hcalls, ?_⟩
  · exact persist_time_search_calls env q limit providers now c
      (List.mem_of_mem_filter hc)
  · exact hcalls ▸ (List.filter_sublist _).filterMap ph_of

/-- Witness for C9: on a concrete mock-mode request at `now = 42` the
analytics record is among the persisted documents and carries timestamp
42. -/
theorem search_persist_shared_time_witness :
    (PersistCall.searchquery ⟨"phone", ["amazon", "flipkart"], 42⟩
        ∈ (search_products envNone noFail "phone" 1 Option.none 42).2)
    ∧ persist_time (PersistCall.searchquery ⟨"phone", ["amazon", "flipkart"], 42⟩) = 42 :=
  ⟨by decide,
   (search_persist_shared_time envNone noFail "phone" 1 Option.none 42
      (PersistCall.searchquery ⟨"phone", ["amazon", "flipkart"], 42⟩)
      (by decide)).1⟩

theorem applyIso_str (s : String) : applyIso (Value.str s) = Value.str s := rfl

theorem applyIso_applyIso (v : Value) : applyIso (applyIso v) = applyIso v := by
  cases v <;> rfl

theorem lookup_map_value (f : String → Value → Value) (d : Doc) (k : String) :
    List.lookup k (d.map fun kv => (kv.1, f kv.1 kv.2))
      = (List.lookup k d).map (f k) := by
  induction d with
  | nil => rfl
  | cons hd tl ih =>
    obtain ⟨a, b⟩ := hd
    by_cases h : k = a
    · subst h
      simp [List.lookup]
    · simp [List.lookup, beq_false_of_ne h, ih]

theorem set_id_str_eq (s : String) (d : Doc) :
    set_id_str s d
      = d.map fun kv => (kv.1, if kv.1 = "_id" then Value.str s else kv.2) := by
  unfold set_id_str
  apply List.map_congr_left
  intro kv _
  by_cases h : kv.1 = "_id" <;> simp [h]

theorem lookup_step2 (d : Doc) (k : String) :
    List.lookup k (serialize_step2 d) = (List.lookup k d).map applyIso :=
  lookup_map_value (fun _ v => applyIso v) d k

theorem lookup_set_id (s : String) (d : Doc) (k : String) :
    List.lookup k (set_id_str s d)
      = (List.lookup k d).map fun v => if k = "_id" then Value.str s else v := by
  rw [set_id_str_eq]
  exact lookup_map_value (fun a v => if a = "_id" then Value.str s else v) d k

theorem keys_set_id (s : String) (d : Doc) :
    (set_id_str s d).map Prod.fst = d.map Prod.fst := by
  rw [set_id_str_eq, List.map_map]
  apply List.map_congr_left
  intro kv _
  rfl

theorem keys_step2 (d : Doc) :
    (serialize_step2 d).map Prod.fst = d.map Prod.fst := by
  unfold serialize_step2
  rw [List.map_map]
  apply List.map_congr_left
  intro kv _
  rfl

theorem keys_step1 (d : Doc) :
    (serialize_step1 d).map Prod.fst = d.map Prod.fst := by
  unfold serialize_step1
  cases h : List.lookup "_id" d with
  | none => rfl
  | some v =>
    by_cases hv : v = Value.none
    · simp [hv]
    · simp [hv, keys_set_id]

theorem step2_idem (d : Doc) :
    serialize_step2 (serialize_step2 d) = serialize_step2 d := by
  unfold serialize_step2
  rw [List.map_map]
  apply List.map_congr_left
  intro kv _
  show (kv.1, applyIso (applyIso kv.2)) = (kv.1, applyIso kv.2)
  rw [applyIso_applyIso]

theorem step2_set_idem (s : String) (d : Doc) :
    serialize_step2 (set_id_str s (serialize_step2 (set_id_str s d)))
      = serialize_step2 (set_id_str s d) := by
  simp only [serialize_step2, set_id_str, List.map_map]
  apply List.map_congr_left
  intro kv _
  by_cases h : kv.1 = "_id" <;>
    simp [Function.comp, h, applyIso_str, applyIso_applyIso]

theorem lookup_isSome_of_mem (d : Doc) (k : String) (w : Value)
    (hm : (k, w) ∈ d) : (List.lookup k d).isSome = true := by
  induction d with
  | nil => cases hm
  | cons hd tl ih =>
    obtain ⟨a, b⟩ := hd
    rcases List.mem_cons.mp hm with h | h
    · injection h with h1 h2
      subst h1
      simp [List.lookup]
    · by_cases hk : k = a
      · subst hk
        simp [List.lookup]
      · simp [List.lookup, beq_false_of_ne hk, ih h]

theorem lookup_of_mem_nodup (d : Doc) (hnd : (d.map Prod.fst).Nodup)
    (k : String) (w : Value) (hm : (k, w) ∈ d) :
    List.lookup k d = some w := by
  induction d with
  | nil => cases hm
  | cons hd tl ih =>
    obtain ⟨a, b⟩ := hd
    simp only [List.map_cons, List.nodup_cons] at hnd
    rcases List.mem_cons.mp hm with h | h
    · injection h with h1 h2
      subst h1
      subst h2
      simp [List.lookup]
    · have hk : k ≠ a := by
        intro he
        subst he
        exact hnd.1 (List.mem_map_of_mem Prod.fst h)
      simp [List.lookup, beq_false_of_ne hk, ih hnd.2 h]

/-- C10: `serialize_mongo` is idempotent for every document, never adds or
removes keys, and — keys being unique, as in every Python dict — changes
exactly the non-`None` `_id` value (coerced to its string form, taking
precedence over the isoformat pass) and the values carrying an `isoformat`
method (replaced by their ISO-8601 string), leaving every other key-value
pair unchanged. -/
theorem serialize_mongo_spec (d : Doc) :
    serialize_mongo (serialize_mongo d) = serialize_mongo d
    ∧ (serialize_mongo d).map Prod.fst = d.map Prod.fst
    ∧ ((d.map Prod.fst).Nodup →
        serialize_mongo d = d.map fun kv =>
          (kv.1,
           if kv.1 = "_id" ∧ kv.2 ≠ Value.none then Value.str (pyStr kv.2)
           else applyIso kv.2)) := by
  by_cases hd : d = []
  · subst hd
    exact ⟨rfl, rfl, fun _ => rfl⟩
  · have hsm : serialize_mongo d = serialize_step2 (serialize_step1 d) :=
      if_neg hd
    have hkeys : (serialize_mongo d).map Prod.fst = d.map Prod.fst := by
      rw [hsm, keys_step2, keys_step1]
    have hne : serialize_mongo d ≠ [] := by
      intro h0
      apply hd
      rw [h0] at hkeys
      exact List.map_eq_nil_iff.mp hkeys.symm
    refine ⟨?_, hkeys, ?_⟩
    · have hr : serialize_mongo (serialize_mongo d)
          = serialize_step2 (serialize_step1 (serialize_mongo d)) := if_neg hne
      rw [hr, hsm]
      cases h : List.lookup "_id" d with
      | none =>
        have h1 : serialize_step1 d = d := by
          unfold serialize_step1
          rw [h]
        rw [h1]
        have h3 : serialize_step1 (serialize_step2 d) = serialize_step2 d := by
          unfold serialize_step1
          rw [lookup_step2, h]
          rfl
        rw [h3, step2_idem]
      | some v =>
        by_cases hv : v = Value.none
        · subst hv
          have h1 : serialize_step1 d = d := by
            unfold serialize_step1
            rw [h]
            simp
          rw [h1]
          have h3 : serialize_step1 (serialize_step2 d) = serialize_step2 d := by
            unfold serialize_step1
            rw [lookup_step2, h]
            simp [applyIso]
          rw [h3, step2_idem]
        · have h1 : serialize_step1 d = set_id_str (pyStr v) d := by
            unfold serialize_step1
            rw [h]
            simp [hv]
          rw [h1]
          have h3 : serialize_step1 (serialize_step2 (set_id_str (pyStr v) d))
              = set_id_str (pyStr v) (serialize_step2 (set_id_str (pyStr v) d)) := by
            unfold serialize_step1
            rw [lookup_step2, lookup_set_id, h]
            simp [applyIso_str, pyStr]
          rw [h3, step2_set_idem]
    · intro hnd
      rw [hsm]
      cases h : List.lookup "_id" d with
      | none =>
        have h1 : serialize_step1 d = d := by
          unfold serialize_step1
          rw [h]
        rw [h1]
        unfold serialize_step2
        apply List.map_congr_left
        intro kv hkv
        have hk : kv.1 ≠ "_id" := by
          intro he
          have hs := lookup_isSome_of_mem d kv.1 kv.2 hkv
          rw [he, h] at hs
          simp at hs
        simp [hk]
      | some v =>
        by_cases hv : v = Value.none
        · subst hv
          have h1 : serialize_step1 d = d := by
            unfold serialize_step1
            rw [h]
            simp
          rw [h1]
          unfold serialize_step2
          apply List.map_congr_left
          intro kv hkv
          by_cases hk : kv.1 = "_id"
          · have hl := lookup_of_mem_nodup d hnd kv.1 kv.2 hkv
            rw [hk, h] at hl
            have hw : kv.2 = Value.none := (Option.some.inj hl).symm
            simp [hk, hw, applyIso]
          · simp [hk]
        · have h1 : serialize_step1 d = set_id_str (pyStr v) d := by
            unfold serialize_step1
            rw [h]
            simp [hv]
          rw [h1, set_id_str_eq]
          unfold serialize_step2
          rw [List.map_map]
          apply List.map_congr_left
          intro kv hkv
          by_cases hk : kv.1 = "_id"
          · have hl := lookup_of_mem_nodup d hnd kv.1 kv.2 hkv
            rw [hk, h] at hl
            have hw : kv.2 = v := (Option.some.inj hl).symm
            simp [Function.comp, hk, hw, hv, applyIso_str]
          · simp [Function.comp, hk]

/-- Witness for C10's key-uniqueness hypothesis: a concrete document with an
ObjectId, a price and a datetime serializes to the expected string forms. -/
theorem serialize_mongo_spec_witness :
    (([("_id", Value.oid "0123456789abcdef01234567"),
       ("price", Value.rat 999),
       ("fetched_at", Value.datetime 5)].map Prod.fst).Nodup)
    ∧ serialize_mongo
        [("_id", Value.oid "0123456789abcdef01234567"),
         ("price", Value.rat 999),
         ("fetched_at", Value.datetime 5)]
      = [("_id", Value.oid "0123456789abcdef01234567"),
         ("price", Value.rat 999),
         ("fetched_at", Value.datetime 5)].map fun kv =>
          (kv.1,
           if kv.1 = "_id" ∧ kv.2 ≠ Value.none then Value.str (pyStr kv.2)
           else applyIso kv.2) :=
  ⟨by decide,
   (serialize_mongo_spec
      [("_id", Value.oid "0123456789abcdef01234567"),
       ("price", Value.rat 999),
       ("fetched_at", Value.datetime 5)]).2.2 (by decide)⟩

end DealWise
